import Mathlib

/-!
Verification of the galaxy intrinsic-alignment simulator (`src/app.py`).

The orientation model lives in `update_plot`: it converts the degree-valued
slider parameters to radians, builds a per-galaxy shear direction field from
the `shear_pattern` string, and returns
`theta_all = theta_random + intrinsic_offset + shear_offset`.
All arithmetic is modelled over `ℝ`, numpy's elementwise array operations as
`List.map`, and `np.arctan2` by the standard atan2 case split.
-/

open Real

namespace Cosmo

/-- Fixed field size from `app.py` line 9 (`field_size = 100`). -/
noncomputable def field_size : ℝ := 100

/-- Fixed ellipticity from `app.py` line 10 (`ellipticity = 0.6`). -/
noncomputable def ellipticity : ℝ := 0.6

/-- One galaxy of the population: position `(x, y)` drawn uniformly over
`[0, field_size]²` and a base orientation `baseAngle` (`theta_random`). -/
structure Galaxy where
  x : ℝ
  y : ℝ
  baseAngle : ℝ

/-- Two-argument arctangent, the real-number semantics of `np.arctan2 y x`:
angle of the point `(x, y)` in `(-π, π]`, with `atan2 0 0 = 0`. -/
noncomputable def atan2 (y x : ℝ) : ℝ :=
  if 0 < x then arctan (y / x)
  else if x < 0 ∧ 0 ≤ y then arctan (y / x) + π
  else if x < 0 ∧ y < 0 then arctan (y / x) - π
  else if 0 < y then π / 2
  else if y < 0 then -(π / 2)
  else 0

/-- `np.deg2rad`: degrees to radians. -/
noncomputable def deg2rad (d : ℝ) : ℝ := d * (π / 180)

/-- `np.degrees`: radians to degrees. -/
noncomputable def rad2deg (r : ℝ) : ℝ := r * (180 / π)

/-- Per-galaxy shear direction, `app.py` lines 203-213: the coordinates are
centered by subtracting the constant `0.5` (`x_centered = x - 0.5`,
`y_centered = y - 0.5`), then the direction is selected by the pattern string,
with `0` as the fallback for unrecognized patterns. -/
noncomputable def shearDirection (pattern : String) (shearAngleUniform : ℝ)
    (g : Galaxy) : ℝ :=
  if pattern = "uniform" then shearAngleUniform
  else if pattern = "radial" then atan2 (g.y - 0.5) (g.x - 0.5) + π / 2
  else if pattern = "tangential" then atan2 (g.y - 0.5) (g.x - 0.5)
  else 0

/-- Intrinsic-alignment offset, `app.py` line 216:
`ia_strength * np.sin(2 * (preferred_angle - theta_random))`. -/
noncomputable def intrinsicOffset (iaStrength preferredAngle θ : ℝ) : ℝ :=
  iaStrength * sin (2 * (preferredAngle - θ))

/-- Shear offset, `app.py` line 219:
`shear_strength * np.sin(2 * (shear_angles - theta_random))`. -/
noncomputable def shearOffset (shearStrength dir θ : ℝ) : ℝ :=
  shearStrength * sin (2 * (dir - θ))

/-- Final angle of one galaxy, `app.py` line 222:
`theta_all = theta_random + intrinsic_offset + shear_offset`,
with radian-valued parameters. -/
noncomputable def finalAngle (iaStrength shearStrength preferredAngle : ℝ)
    (pattern : String) (shearAngleUniform : ℝ) (g : Galaxy) : ℝ :=
  g.baseAngle + intrinsicOffset iaStrength preferredAngle g.baseAngle
    + shearOffset shearStrength (shearDirection pattern shearAngleUniform g)
        g.baseAngle

/-- The orientation model over the whole population, as `update_plot` computes
it (`app.py` lines 199-222): degree-valued parameters are converted to radians,
then each galaxy's final angle is formed elementwise. -/
noncomputable def updateAngles (iaStrength shearStrength prefDeg shearDeg : ℝ)
    (pattern : String) (pop : List Galaxy) : List ℝ :=
  pop.map (finalAngle iaStrength shearStrength (deg2rad prefDeg) pattern
    (deg2rad shearDeg))

/-- `np.linspace a b n` with the default inclusive endpoint:
`n` samples `a + (b - a) * i / (n - 1)` for `i = 0, …, n-1`. -/
noncomputable def linspace (a b : ℝ) (n : ℕ) : List ℝ :=
  (List.range n).map (fun i : ℕ => a + (b - a) * (i : ℝ) / ((n - 1 : ℕ) : ℝ))

/-- One ellipse outline as built inside `make_ellipses` (`app.py` lines 30-42):
`nPoints` parameter values over `[0, 2π]`, the axis half-lengths `w/2 = 1/2`
and `h/2 = (1*e)/2`, a rotation by `t` and a translation to `(xi, yi)`.
The source fixes `nPoints = 30`; the point count is kept as a parameter. -/
noncomputable def ellipseOutline (xi yi t e : ℝ) (nPoints : ℕ) : List (ℝ × ℝ) :=
  (linspace 0 (2 * π) nPoints).map (fun tv =>
    (cos t * (((1 : ℝ) / 2) * cos tv) - sin t * (((1 : ℝ) * e / 2) * sin tv) + xi,
     sin t * (((1 : ℝ) / 2) * cos tv) + cos t * (((1 : ℝ) * e / 2) * sin tv) + yi))

/-- `make_ellipses` (`app.py` lines 28-51): one 30-point outline per galaxy. -/
noncomputable def make_ellipses (pop : List Galaxy) (theta : List ℝ) (e : ℝ) :
    List (List (ℝ × ℝ)) :=
  (pop.zip theta).map (fun p => ellipseOutline p.1.x p.1.y p.2 e 30)

/-- Real-number semantics of numpy's `%` on floats with a positive modulus:
`a % b = a - b * ⌊a / b⌋`. -/
noncomputable def realMod (a b : ℝ) : ℝ := a - b * ((⌊a / b⌋ : ℤ) : ℝ)

/-- Histogram angle transformation, `app.py` line 271:
`angles_deg = np.degrees(theta_all) % 180`. -/
noncomputable def histAngle (θ : ℝ) : ℝ := realMod (rad2deg θ) 180

/-- Orientation vector of one galaxy (`app.py` lines 243-250): two endpoints
straddling the position along the final angle, offset by half of the fixed
axis length `2.5`. -/
noncomputable def orientationVector (g : Galaxy) (θ : ℝ) : (ℝ × ℝ) × (ℝ × ℝ) :=
  ((g.x - 0.5 * 2.5 * cos θ, g.y - 0.5 * 2.5 * sin θ),
   (g.x + 0.5 * 2.5 * cos θ, g.y + 0.5 * 2.5 * sin θ))

/-- The module-level session state of `app.py`: the galaxy population created
once at import time (lines 14-18) and read by every callback invocation. -/
structure SessionState where
  pop : List Galaxy

/-- The whole `update_plot` callback (`app.py` lines 190-286) as a state-passing
function: it reads the population from the session state, computes the final
angles, the ellipse outlines, the optional orientation vectors and the
histogram angles, and threads the state through.  The Python body never
rebinds the module-level arrays `x`, `y`, `theta_random` and performs no
in-place numpy mutation (every array operation allocates a fresh array), so
the translated callback returns the state it received. -/
noncomputable def updatePlot (st : SessionState)
    (iaStrength shearStrength prefDeg shearDeg : ℝ) (pattern : String)
    (showVectors : Bool) :
    (List (List (ℝ × ℝ)) × Option (List ((ℝ × ℝ) × (ℝ × ℝ))) × List ℝ)
      × SessionState :=
  let thetaAll := updateAngles iaStrength shearStrength prefDeg shearDeg
    pattern st.pop
  let ellipses := make_ellipses st.pop thetaAll ellipticity
  let vectors := if showVectors then
      some ((st.pop.zip thetaAll).map (fun p => orientationVector p.1 p.2))
    else none
  let hist := thetaAll.map histAngle
  ((ellipses, vectors, hist), st)

/-! ### Helper lemmas -/

lemma finalAngle_sub_base (ia s pref : ℝ) (pat : String) (u : ℝ) (g : Galaxy) :
    finalAngle ia s pref pat u g - g.baseAngle =
      ia * sin (2 * (pref - g.baseAngle))
        + s * sin (2 * (shearDirection pat u g - g.baseAngle)) := by
  simp only [finalAngle, intrinsicOffset, shearOffset]
  ring

lemma abs_sin_le_one' (x : ℝ) : |sin x| ≤ 1 :=
  abs_le.mpr ⟨neg_one_le_sin x, sin_le_one x⟩

lemma abs_finalAngle_sub_base (ia s pref : ℝ) (pat : String) (u : ℝ)
    (g : Galaxy) :
    |finalAngle ia s pref pat u g - g.baseAngle| ≤ |ia| + |s| := by
  rw [finalAngle_sub_base]
  calc |ia * sin (2 * (pref - g.baseAngle))
          + s * sin (2 * (shearDirection pat u g - g.baseAngle))|
      ≤ |ia * sin (2 * (pref - g.baseAngle))|
          + |s * sin (2 * (shearDirection pat u g - g.baseAngle))| :=
        abs_add _ _
    _ ≤ |ia| * 1 + |s| * 1 := by
        rw [abs_mul, abs_mul]
        gcongr
        · exact abs_sin_le_one' _
        · exact abs_sin_le_one' _
    _ = |ia| + |s| := by ring

lemma histAngle_eq_fract (θ : ℝ) :
    histAngle θ = 180 * Int.fract (rad2deg θ / 180) := by
  unfold histAngle realMod Int.fract
  have h : (180 : ℝ) * (rad2deg θ / 180) = rad2deg θ := by field_simp
  rw [mul_sub, h]

lemma linspace_length (a b : ℝ) (n : ℕ) : (linspace a b n).length = n := by
  unfold linspace
  rw [List.length_map, List.length_range]

lemma linspace_get (a b : ℝ) (n i : ℕ) (h : i < (linspace a b n).length) :
    (linspace a b n).get ⟨i, h⟩ = a + (b - a) * i / ((n - 1 : ℕ) : ℝ) := by
  unfold linspace
  simp only [List.get_eq_getElem, List.getElem_map, List.getElem_range]

lemma ellipseOutline_length (xi yi t e : ℝ) (n : ℕ) :
    (ellipseOutline xi yi t e n).length = n := by
  unfold ellipseOutline
  rw [List.length_map, linspace_length]

/-! ### Claim theorems -/

/-- C2: with `ia_strength = 0` and `shear_strength = 0` the orientation model
returns every galaxy's base angle exactly unchanged, for every population and
every choice of `preferred_angle`, `shear_angle` and `shear_pattern`. -/
theorem c2_zero_strength_identity (prefDeg shearDeg : ℝ) (pat : String)
    (pop : List Galaxy) :
    updateAngles 0 0 prefDeg shearDeg pat pop = pop.map Galaxy.baseAngle := by
  simp [updateAngles, finalAngle, intrinsicOffset, shearOffset]

/-- C7: replacing the base angle `θ` by `θ + π` leaves both the
intrinsic-alignment offset and the shear offset unchanged, for all strengths,
preferred angles, and shear directions. -/
theorem c7_offsets_pi_periodic (ia s pref dir θ : ℝ) :
    intrinsicOffset ia pref (θ + π) = intrinsicOffset ia pref θ ∧
      shearOffset s dir (θ + π) = shearOffset s dir θ := by
  constructor
  · unfold intrinsicOffset
    rw [show 2 * (pref - (θ + π)) = 2 * (pref - θ) - 2 * π by ring,
      sin_sub_two_pi]
  · unfold shearOffset
    rw [show 2 * (dir - (θ + π)) = 2 * (dir - θ) - 2 * π by ring,
      sin_sub_two_pi]

/-- C9: the `update_plot` callback leaves the galaxy population untouched —
after any call the positions, base angles and the count `N` in the session
state are exactly what the field generator produced at session start. -/
theorem c9_population_unchanged (st : SessionState)
    (ia s prefDeg shearDeg : ℝ) (pat : String) (sv : Bool) :
    (updatePlot st ia s prefDeg shearDeg pat sv).2 = st ∧
      ((updatePlot st ia s prefDeg shearDeg pat sv).2).pop.length
        = st.pop.length :=
  ⟨rfl, rfl⟩

/-- C8: the orientation model is total over the reals: for every real-valued
choice of strengths and angles — including strengths outside `[0,1]` — and
every galaxy, the final angle is a well-defined real number within
`|ia| + |s|` of the base angle; moreover a galaxy sitting exactly at the
pattern center `(0.5, 0.5)` gets the well-defined radial direction
`atan2 0 0 + π/2 = π/2`, not an error. -/
theorem c8_model_total (ia s pref u : ℝ) (pat : String) (g : Galaxy) :
    (∃ r : ℝ, finalAngle ia s pref pat u g = r ∧
        |r - g.baseAngle| ≤ |ia| + |s|) ∧
      ∀ θ : ℝ, finalAngle ia s pref "radial" u ⟨0.5, 0.5, θ⟩ =
        θ + intrinsicOffset ia pref θ + shearOffset s (π / 2) θ := by
  refine ⟨⟨finalAngle ia s pref pat u g, rfl,
    abs_finalAngle_sub_base ia s pref pat u g⟩, fun θ => ?_⟩
  have hdir : shearDirection "radial" u ⟨0.5, 0.5, θ⟩ = π / 2 := by
    rw [shearDirection, if_neg (by decide), if_pos rfl]
    norm_num [atan2]
  rw [finalAngle, hdir]

/-- C5: the histogram transformation (radians to degrees, then reduction
modulo 180) always lands in `[0, 180)`, and two final angles whose degree
values differ by exactly 180 map to the same histogram value. -/
theorem c5_histogram_wrap (θ : ℝ) :
    (0 ≤ histAngle θ ∧ histAngle θ < 180) ∧
      ∀ θ2 : ℝ, rad2deg θ2 = rad2deg θ + 180 → histAngle θ2 = histAngle θ := by
  refine ⟨⟨?_, ?_⟩, fun θ2 hdiff => ?_⟩
  · rw [histAngle_eq_fract]
    exact mul_nonneg (by norm_num) (Int.fract_nonneg _)
  · rw [histAngle_eq_fract]
    have h := Int.fract_lt_one (rad2deg θ / 180)
    linarith
  · rw [histAngle_eq_fract, histAngle_eq_fract, hdiff,
      show (rad2deg θ + 180) / 180 = rad2deg θ / 180 + 1 by
        rw [add_div]; norm_num,
      Int.fract_add_one]

/-- C5 witness: the wrap equality applied to the pair `0` and `π`, whose
degree values `0` and `180` differ by exactly `180`. -/
theorem c5_histogram_wrap_witness : histAngle π = histAngle 0 :=
  (c5_histogram_wrap 0).2 π (by
    unfold rad2deg
    rw [zero_mul, zero_add]
    field_simp)

/-- C6: for every position, rotation angle and point count `n ≥ 2`, the
ellipse outline is a closed polyline: its first and last points are equal,
because the parameter runs over `[0, 2π]` inclusive of both endpoints. -/
theorem c6_ellipse_closed (xi yi t e : ℝ) (n : ℕ) (hn : 2 ≤ n)
    (h1 : 0 < (ellipseOutline xi yi t e n).length)
    (h2 : n - 1 < (ellipseOutline xi yi t e n).length) :
    (ellipseOutline xi yi t e n).get ⟨0, h1⟩ =
      (ellipseOutline xi yi t e n).get ⟨n - 1, h2⟩ := by
  have hl1 : 0 < (linspace 0 (2 * π) n).length := by
    rw [linspace_length]; omega
  have hl2 : n - 1 < (linspace 0 (2 * π) n).length := by
    rw [linspace_length]; omega
  have e0 : (linspace 0 (2 * π) n).get ⟨0, hl1⟩ = 0 := by
    rw [linspace_get]; simp
  have elast : (linspace 0 (2 * π) n).get ⟨n - 1, hl2⟩ = 2 * π := by
    rw [linspace_get]
    have hne : ((n - 1 : ℕ) : ℝ) ≠ 0 := Nat.cast_ne_zero.mpr (by omega)
    rw [mul_div_assoc, div_self hne]
    ring
  simp only [List.get_eq_getElem] at e0 elast ⊢
  unfold ellipseOutline
  rw [List.getElem_map, List.getElem_map, e0, elast]
  norm_num [Real.cos_two_pi, Real.sin_two_pi]

/-- C6 witness: the source's instantiation with 30 points, at a concrete
position and rotation angle, has equal first and last points. -/
theorem c6_ellipse_closed_witness :
    (ellipseOutline 10 10 (π / 4) 0.6 30).get
        ⟨0, by rw [ellipseOutline_length]; norm_num⟩ =
      (ellipseOutline 10 10 (π / 4) 0.6 30).get
        ⟨30 - 1, by rw [ellipseOutline_length]; norm_num⟩ :=
  c6_ellipse_closed 10 10 (π / 4) 0.6 30 (by norm_num)
    (by rw [ellipseOutline_length]; norm_num)
    (by rw [ellipseOutline_length]; norm_num)

/-- C10: every final angle deviates from its base angle by at most
`|ia_strength| + |shear_strength|`, and with both strengths in `[0,1]` the
deviation is at most `2` radians. -/
theorem c10_deviation_bound (ia s pref u : ℝ) (pat : String) (g : Galaxy) :
    |finalAngle ia s pref pat u g - g.baseAngle| ≤ |ia| + |s| ∧
      (0 ≤ ia → ia ≤ 1 → 0 ≤ s → s ≤ 1 →
        |finalAngle ia s pref pat u g - g.baseAngle| ≤ 2) := by
  refine ⟨abs_finalAngle_sub_base ia s pref pat u g, fun h1 h2 h3 h4 => ?_⟩
  have h := abs_finalAngle_sub_base ia s pref pat u g
  have hia : |ia| ≤ 1 := by rw [abs_of_nonneg h1]; exact h2
  have hs : |s| ≤ 1 := by rw [abs_of_nonneg h3]; exact h4
  linarith

/-- C1: the per-galaxy final angle produced by the orientation model is the
plain sum `θ₀ + ia * sin (2 * (preferred - θ₀)) + s * sin (2 * (dir_i - θ₀))`
where `dir_i` is the per-galaxy direction selected by the shear pattern; no
normalization or wrapping is applied to the stored value. -/
theorem c1_final_angle_formula (ia s prefDeg shearDeg : ℝ) (pat : String)
    (pop : List Galaxy) (i : ℕ)
    (h : i < (updateAngles ia s prefDeg shearDeg pat pop).length)
    (h2 : i < pop.length) :
    (updateAngles ia s prefDeg shearDeg pat pop).get ⟨i, h⟩ =
      (pop.get ⟨i, h2⟩).baseAngle
        + ia * sin (2 * (deg2rad prefDeg - (pop.get ⟨i, h2⟩).baseAngle))
        + s * sin (2 * (shearDirection pat (deg2rad shearDeg)
            (pop.get ⟨i, h2⟩) - (pop.get ⟨i, h2⟩).baseAngle)) := by
  simp only [List.get_eq_getElem, updateAngles, List.getElem_map, finalAngle,
    intrinsicOffset, shearOffset]

/-- C1 witness: the formula instantiated at a one-galaxy population with
concrete parameters. -/
theorem c1_final_angle_formula_witness :
    (updateAngles 1 1 45 90 "uniform" [⟨10, 10, 0⟩]).get
        ⟨0, by simp [updateAngles]⟩ =
      (([⟨10, 10, 0⟩] : List Galaxy).get ⟨0, by simp⟩).baseAngle
        + 1 * sin (2 * (deg2rad 45
            - (([⟨10, 10, 0⟩] : List Galaxy).get ⟨0, by simp⟩).baseAngle))
        + 1 * sin (2 * (shearDirection "uniform" (deg2rad 90)
            (([⟨10, 10, 0⟩] : List Galaxy).get ⟨0, by simp⟩)
            - (([⟨10, 10, 0⟩] : List Galaxy).get ⟨0, by simp⟩).baseAngle)) :=
  c1_final_angle_formula 1 1 45 90 "uniform" [⟨10, 10, 0⟩] 0
    (by simp [updateAngles]) (by simp)

/-- C3 counterexample: the claim places the centering point at the field
midpoint `field_size / 2 = 50`, but the code subtracts the constant `0.5`
(`x_centered = x - 0.5`); at the concrete galaxy `(10, 10)` the radial shear
direction computed by the code differs from the claimed
`atan2 (y - field_size/2) (x - field_size/2) + π/2`. -/
theorem c3_field_midpoint_counterexample :
    shearDirection "radial" 0 ⟨10, 10, 0⟩ ≠
      atan2 (10 - field_size / 2) (10 - field_size / 2) + π / 2 := by
  have hL : shearDirection "radial" 0 ⟨10, 10, 0⟩ = π / 4 + π / 2 := by
    rw [shearDirection, if_neg (by decide), if_pos rfl]
    have hv : atan2 ((Galaxy.mk 10 10 0).y - 0.5) ((Galaxy.mk 10 10 0).x - 0.5)
        = π / 4 := by
      show atan2 (10 - 0.5) (10 - 0.5) = π / 4
      rw [atan2, if_pos (by norm_num)]
      norm_num [Real.arctan_one]
    rw [hv]
  have hR : atan2 (10 - field_size / 2) (10 - field_size / 2) = π / 4 - π := by
    have h40 : (10 : ℝ) - field_size / 2 = -40 := by norm_num [field_size]
    rw [h40, atan2, if_neg (by norm_num), if_neg (by norm_num),
      if_pos (by norm_num)]
    norm_num [Real.arctan_one]
  rw [hL, hR]
  intro heq
  have hpi : π = 0 := by linarith
  exact Real.pi_ne_zero hpi

/-- C3 amended: the radial per-galaxy shear direction is
`atan2 (y - 0.5) (x - 0.5) + π/2` and the tangential one is
`atan2 (y - 0.5) (x - 0.5)`, where the centering constant is `0.5` subtracted
from the raw coordinates (the reference implementation's normalized-frame
offset), not `field_size / 2`. -/
theorem c3_shear_direction_centering (u : ℝ) (g : Galaxy) :
    shearDirection "radial" u g = atan2 (g.y - 0.5) (g.x - 0.5) + π / 2 ∧
      shearDirection "tangential" u g = atan2 (g.y - 0.5) (g.x - 0.5) := by
  constructor
  · rw [shearDirection, if_neg (by decide), if_pos rfl]
  · rw [shearDirection, if_neg (by decide), if_neg (by decide), if_pos rfl]

/-- C4: an unrecognized `shear_pattern` string makes the model produce exactly
the final angles of `shear_pattern = "uniform"` with `shear_angle = 0`; the
string dispatch ends in a total fallback branch, not an error. -/
theorem c4_unknown_pattern_fallback (ia s prefDeg shearDeg : ℝ) (pat : String)
    (pop : List Galaxy) (h1 : pat ≠ "uniform") (h2 : pat ≠ "radial")
    (h3 : pat ≠ "tangential") :
    updateAngles ia s prefDeg shearDeg pat pop =
      updateAngles ia s prefDeg 0 "uniform" pop := by
  unfold updateAngles
  congr 1
  funext g
  unfold finalAngle shearOffset
  have hd : shearDirection pat (deg2rad shearDeg) g = 0 := by
    rw [shearDirection, if_neg h1, if_neg h2, if_neg h3]
  have hu : shearDirection "uniform" (deg2rad 0) g = 0 := by
    rw [shearDirection, if_pos rfl]
    simp [deg2rad]
  rw [hd, hu]

/-- C4 witness: the fallback equality at the concrete pattern string
`"unknown_value"`. -/
theorem c4_unknown_pattern_fallback_witness :
    updateAngles 1 1 45 90 "unknown_value" [⟨10, 10, 0⟩] =
      updateAngles 1 1 45 0 "uniform" [⟨10, 10, 0⟩] :=
  c4_unknown_pattern_fallback 1 1 45 90 "unknown_value" [⟨10, 10, 0⟩]
    (by decide) (by decide) (by decide)

/-- C10 witness: the bound instantiated at a concrete galaxy and concrete
in-range strengths. -/
theorem c10_deviation_bound_witness :
    |finalAngle 1 1 (π / 4) "uniform" (π / 2) ⟨10, 10, 0⟩ - (0 : ℝ)| ≤ 2 := by
  have h := (c10_deviation_bound 1 1 (π / 4) (π / 2) "uniform"
    ⟨10, 10, 0⟩).2 (by norm_num) (by norm_num) (by norm_num) (by norm_num)
  simpa using h

end Cosmo
